import Mathlib

/-!
Verification development for the levo portal client (src/portal/src/main.rs).

The portal is a Bevy application that fetches a compressed wasm component
from a remote host, instantiates it in a wasmtime sandbox, exposes a fixed
drawing API whose calls are recorded into an event queue, and once per tick
drains the queue into renderable primitives.

Shallow embedding conventions:
- Rust f32 values are modelled as exact rationals; the claims under study
  concern structural behaviour and exact arithmetic identities, not rounding.
- bevy Commands.spawn calls are modelled by returning the list of spawned
  primitives; eprintln warnings are modelled by a warning counter.
- wasmtime/wtransport effects are modelled by outcome parameters: each
  fallible step of get_wasm either succeeds or fails, and the embedding
  records whether the Rust code would propagate an error (the question-mark
  operator) or panic (unwrap).
-/

namespace Levo

/-- Rust f32 coordinates, modelled as exact rationals. -/
abbrev F32 := ℚ

/-- Mirrors struct FillRect (main.rs lines 34-40). -/
structure FillRect where
  x : F32
  y : F32
  width : F32
  height : F32
deriving DecidableEq, Repr

/-- Mirrors struct Arc (main.rs lines 42-49). -/
structure Arc where
  x : F32
  y : F32
  radius : F32
  sweep_angle : F32
  x_rotation : F32
deriving DecidableEq, Repr

/-- Mirrors struct CubicBezierTo (main.rs lines 51-59). -/
structure CubicBezierTo where
  x1 : F32
  y1 : F32
  x2 : F32
  y2 : F32
  x3 : F32
  y3 : F32
deriving DecidableEq, Repr

/-- Mirrors struct Label (main.rs lines 61-68). -/
structure Label where
  text : String
  x : F32
  y : F32
  size : F32
  color : String
deriving DecidableEq, Repr

/-- Mirrors enum HostEvent (main.rs lines 70-81). -/
inductive HostEvent
  | Label (l : Label)
  | FillStyle (color : String)
  | FillRect (r : FillRect)
  | MoveTo (p : F32 × F32)
  | CubicBezierTo (c : CubicBezierTo)
  | BeginPath
  | Arc (a : Arc)
  | ClosePath
  | Fill
deriving DecidableEq, Repr

/-- Bevy Color as far as the portal uses it: the default Color.RED constant
and colors produced from guest color strings. -/
inductive BevyColor
  | RED
  | custom (s : String)
deriving DecidableEq, Repr

/-- Modelled from the spec: string_to_bevy_color lives in src/portal/src/ui.rs,
which is not among the provided sources. Section 4.5 of the spec describes it
only as parsing a color string, so it is modelled as the injective embedding
of the color string; no claim depends on the concrete parse. -/
def string_to_bevy_color (s : String) : BevyColor := .custom s

/-- Mirrors bevy_prototype_lyon Fill as used here: a fill color. -/
structure Fill where
  color : BevyColor
deriving DecidableEq, Repr

/-- Fill.color constructor, as in the Rust code. -/
def Fill.ofColor (c : BevyColor) : Fill := ⟨c⟩

/-- Mirrors bevy_prototype_lyon RectangleOrigin (only Center is used by the
portal, the other variants exist in the library). -/
inductive RectangleOrigin
  | Center
  | TopLeft
  | TopRight
  | BottomLeft
  | BottomRight
deriving DecidableEq, Repr

/-- Mirrors bevy_prototype_lyon shapes.Rectangle as spawned by the portal. -/
structure Rectangle where
  extents : F32 × F32
  origin : RectangleOrigin
deriving DecidableEq, Repr

/-- One operation recorded by a bevy_prototype_lyon PathBuilder. -/
inductive PathOp
  | move_to (p : F32 × F32)
  | arc (center : F32 × F32) (radii : F32 × F32) (sweep_angle : F32) (x_rotation : F32)
  | cubic_bezier_to (ctrl1 ctrl2 dest : F32 × F32)
  | close
deriving DecidableEq, Repr

/-- Mirrors enum PathCommand (main.rs lines 229-236). -/
inductive PathCommand
  | MoveTo (p : F32 × F32)
  | CubicBezierTo (c : CubicBezierTo)
  | Arc (a : Arc)
  | Begin
  | Close
deriving DecidableEq, Repr

/-- A renderable entity spawned by handle_guest_event, tagged GuestEntity.
Each carries the translation of its Transform (rectangles use the default
transform, paths use z = 0.001, labels use the given position and z = 0.01). -/
inductive Primitive
  | shapeRect (rect : Rectangle) (translation : F32 × F32 × F32) (fill : Fill)
  | shapePath (ops : List PathOp) (translation : F32 × F32 × F32) (fill : Fill)
  | text (content : String) (font_size : F32) (color : BevyColor)
      (translation : F32 × F32 × F32)
deriving DecidableEq, Repr

/-- Whether a primitive is a filled-path primitive. -/
def Primitive.isPath : Primitive → Bool
  | .shapePath _ _ _ => true
  | _ => false

/-- The per-drain-pass mutable state of handle_guest_event (main.rs lines
252-255): current_fill, current_path and the remembered rectangle
dimensions w, h (initialised to -1.0). -/
structure DrainState where
  current_fill : Option Fill
  current_path : List PathCommand
  w : F32
  h : F32
deriving DecidableEq, Repr

/-- Initial drain state: current_fill = None, current_path = Vec.new(),
w = -1.0, h = -1.0 (main.rs lines 252-255). -/
def initDrainState : DrainState := ⟨none, [], -1, -1⟩

/-- The path-construction loop inside the Fill arm (main.rs lines 298-339):
for each drained PathCommand after the leading Begin, push the corresponding
PathBuilder operations. An Arc becomes a move_to plus an arc whose
coordinates are offset by the remembered rectangle dimensions w, h; a nested
Begin only prints a debug line and contributes no operation. -/
def buildPathOps (cmds : List PathCommand) (w h : F32) : List PathOp :=
  match cmds with
  | [] => []
  | c :: rest =>
    (match c with
      | .Arc a =>
        [.move_to (a.x - w / 2, a.y + h / 2),
         .arc (a.x + a.radius - w / 2, a.y + a.radius + h / 2)
           (a.radius, a.radius) a.sweep_angle a.x_rotation]
      | .Begin => []
      | .Close => [.close]
      | .MoveTo p => [.move_to p]
      | .CubicBezierTo c =>
        [.cubic_bezier_to (c.x1, c.y1) (c.x2, c.y2) (c.x3, c.y3)])
      ++ buildPathOps rest w h

/-- One iteration of the drain loop of handle_guest_event (main.rs lines
256-391): processes a single HostEvent, returning the updated drain state,
the primitives spawned for it, and the number of warnings printed (the
eprintln in the Fill arm). -/
def handleEvent (s : DrainState) (e : HostEvent) :
    DrainState × List Primitive × Nat :=
  match e with
  | .FillStyle c_str =>
    ({ s with current_fill := some (Fill.ofColor (string_to_bevy_color c_str)) },
     [], 0)
  | .FillRect r =>
    ({ s with w := r.width, h := r.height, current_fill := none },
     [.shapeRect ⟨(r.x + r.width, r.y + r.height), .Center⟩ (0, 0, 0)
        (s.current_fill.getD (Fill.ofColor .RED))],
     0)
  | .BeginPath =>
    ({ s with current_path := s.current_path ++ [.Begin] }, [], 0)
  | .Arc a =>
    ({ s with current_path := s.current_path ++ [.Arc a] }, [], 0)
  | .ClosePath =>
    ({ s with current_path := s.current_path ++ [.Close] }, [], 0)
  | .Fill =>
    match s.current_path.head? with
    | some .Begin =>
      ({ s with current_fill := none, current_path := [] },
       [.shapePath (buildPathOps (s.current_path.drop 1) s.w s.h)
          (0, 0, 1 / 1000) (s.current_fill.getD (Fill.ofColor .RED))],
       0)
    | _ => (s, [], 1)
  | .MoveTo p =>
    ({ s with current_path := s.current_path ++ [.MoveTo p] }, [], 0)
  | .CubicBezierTo c =>
    ({ s with current_path := s.current_path ++ [.CubicBezierTo c] }, [], 0)
  | .Label l =>
    (s,
     [.text l.text l.size (string_to_bevy_color l.color) (l.x, l.y, 1 / 100)],
     0)

/-- The drain loop of handle_guest_event over a list of queued events,
threading the drain state and collecting spawned primitives and warnings. -/
def runDrain (s : DrainState) (es : List HostEvent) :
    DrainState × List Primitive × Nat :=
  match es with
  | [] => (s, [], 0)
  | e :: rest =>
    let out := handleEvent s e
    let outRest := runDrain out.1 rest
    (outRest.1, out.2.1 ++ outRest.2.1, out.2.2 + outRest.2.2)

/-- The guest-visible data of the wasmtime Store: MyCtx with its event queue
(main.rs lines 83-87). The wasi table and context carry no observable state
for the claims under study. -/
structure MyCtx where
  queue : List HostEvent
deriving DecidableEq, Repr

/-- Mirrors the WasmStore resource (main.rs lines 194-197): it owns the
Store whose data is MyCtx. -/
structure WasmStore where
  store : MyCtx
deriving DecidableEq, Repr

/-- Mirrors handle_guest_event (main.rs lines 247-392) for a present
WasmStore resource: drain the whole queue in FIFO order through the state
machine, leaving the queue empty, and spawn the resulting primitives. -/
def handle_guest_event (ws : WasmStore) : WasmStore × List Primitive × Nat :=
  let out := runDrain initDrainState ws.store.queue
  (⟨⟨[]⟩⟩, out.2.1, out.2.2)

/-- Result type of a host interface function: wasmtime.Result of unit. Every
implementation in main.rs returns Ok. -/
inductive WasmtimeResult
  | Ok
  | Err (msg : String)
deriving DecidableEq, Repr

/-- Mirrors MyCtx.print (main.rs lines 106-109): dbg only, no queue effect. -/
def MyCtx.print (ctx : MyCtx) (from_wasm : String) : MyCtx × WasmtimeResult :=
  (ctx, .Ok)

/-- Mirrors MyCtx.fill_style (main.rs lines 110-113). -/
def MyCtx.fill_style (ctx : MyCtx) (color : String) : MyCtx × WasmtimeResult :=
  (⟨ctx.queue ++ [HostEvent.FillStyle color]⟩, .Ok)

/-- Mirrors MyCtx.fill_rect (main.rs lines 114-122). -/
def MyCtx.fill_rect (ctx : MyCtx) (x y width height : F32) :
    MyCtx × WasmtimeResult :=
  (⟨ctx.queue ++ [HostEvent.FillRect ⟨x, y, width, height⟩]⟩, .Ok)

/-- Mirrors MyCtx.begin_path (main.rs lines 123-126). -/
def MyCtx.begin_path (ctx : MyCtx) : MyCtx × WasmtimeResult :=
  (⟨ctx.queue ++ [HostEvent.BeginPath]⟩, .Ok)

/-- Mirrors MyCtx.arc (main.rs lines 127-143). -/
def MyCtx.arc (ctx : MyCtx) (x y radius sweep_angle x_rotation : F32) :
    MyCtx × WasmtimeResult :=
  (⟨ctx.queue ++ [HostEvent.Arc ⟨x, y, radius, sweep_angle, x_rotation⟩]⟩, .Ok)

/-- Mirrors MyCtx.close_path (main.rs lines 144-147). -/
def MyCtx.close_path (ctx : MyCtx) : MyCtx × WasmtimeResult :=
  (⟨ctx.queue ++ [HostEvent.ClosePath]⟩, .Ok)

/-- Mirrors MyCtx.fill (main.rs lines 148-151). -/
def MyCtx.fill (ctx : MyCtx) : MyCtx × WasmtimeResult :=
  (⟨ctx.queue ++ [HostEvent.Fill]⟩, .Ok)

/-- Mirrors MyCtx.move_to (main.rs lines 152-155). -/
def MyCtx.move_to (ctx : MyCtx) (x y : F32) : MyCtx × WasmtimeResult :=
  (⟨ctx.queue ++ [HostEvent.MoveTo (x, y)]⟩, .Ok)

/-- Mirrors MyCtx.cubic_bezier_to (main.rs lines 156-174). -/
def MyCtx.cubic_bezier_to (ctx : MyCtx) (x1 y1 x2 y2 x3 y3 : F32) :
    MyCtx × WasmtimeResult :=
  (⟨ctx.queue ++ [HostEvent.CubicBezierTo ⟨x1, y1, x2, y2, x3, y3⟩]⟩, .Ok)

/-- Mirrors MyCtx.label (main.rs lines 175-191). -/
def MyCtx.label (ctx : MyCtx) (text : String) (x y size : F32)
    (color : String) : MyCtx × WasmtimeResult :=
  (⟨ctx.queue ++ [HostEvent.Label ⟨text, x, y, size, color⟩]⟩, .Ok)

/-- One invocation of a host interface function by the guest, with its
arguments: the ten functions of impl Host for MyCtx (main.rs 105-192). -/
inductive HostCall
  | print (s : String)
  | fill_style (color : String)
  | fill_rect (x y width height : F32)
  | begin_path
  | arc (x y radius sweep_angle x_rotation : F32)
  | close_path
  | fill
  | move_to (x y : F32)
  | cubic_bezier_to (x1 y1 x2 y2 x3 y3 : F32)
  | label (text : String) (x y size : F32) (color : String)
deriving DecidableEq, Repr

/-- Dispatch one guest call to the corresponding host implementation. -/
def hostDispatch (ctx : MyCtx) : HostCall → MyCtx × WasmtimeResult
  | .print s => ctx.print s
  | .fill_style c => ctx.fill_style c
  | .fill_rect x y w h => ctx.fill_rect x y w h
  | .begin_path => ctx.begin_path
  | .arc x y r sw xr => ctx.arc x y r sw xr
  | .close_path => ctx.close_path
  | .fill => ctx.fill
  | .move_to x y => ctx.move_to x y
  | .cubic_bezier_to x1 y1 x2 y2 x3 y3 => ctx.cubic_bezier_to x1 y1 x2 y2 x3 y3
  | .label t x y s c => ctx.label t x y s c

/-- Run a sequence of guest calls against the context, in call order. -/
def enqueueAll (ctx : MyCtx) (calls : List HostCall) : MyCtx :=
  calls.foldl (fun c call => (hostDispatch c call).1) ctx

/-- Mirrors queue.drain(..) as used by handle_guest_event (main.rs line 256):
moves every queued event out in index (FIFO) order and leaves the queue
empty. -/
def drainQueue (ctx : MyCtx) : List HostEvent × MyCtx :=
  (ctx.queue, ⟨[]⟩)

/-- The CommandEvent a host call records on the queue, per the spec of the
Host Command Interface: every call except print appends the variant carrying
the call arguments unchanged; print appends nothing. -/
def eventOfCall : HostCall → Option HostEvent
  | .print _ => none
  | .fill_style c => some (.FillStyle c)
  | .fill_rect x y w h => some (.FillRect ⟨x, y, w, h⟩)
  | .begin_path => some .BeginPath
  | .arc x y r sw xr => some (.Arc ⟨x, y, r, sw, xr⟩)
  | .close_path => some .ClosePath
  | .fill => some .Fill
  | .move_to x y => some (.MoveTo (x, y))
  | .cubic_bezier_to x1 y1 x2 y2 x3 y3 =>
    some (.CubicBezierTo ⟨x1, y1, x2, y2, x3, y3⟩)
  | .label t x y s c => some (.Label ⟨t, x, y, s, c⟩)

/-- Mirrors the WasmBindings resource (main.rs lines 199-203): the
instantiated MyWorld bindings (opaque, identified by a numeric handle) and
the first_run flag. -/
structure WasmBindings where
  bindings : Nat
  first_run : Bool
deriving DecidableEq, Repr

/-- The Bevy world as far as the portal mutates it: the two optional
resources WasmBindings and WasmStore. -/
structure World where
  wasm_bindings : Option WasmBindings
  wasm_store : Option WasmStore
deriving DecidableEq, Repr

/-- A call into the guest: one of its two exported entry points. -/
inductive GuestCall
  | setup
  | update
deriving DecidableEq, Repr

/-- Mirrors run_wasm_setup (main.rs lines 423-434): when the WasmBindings
resource exists and first_run is set, clear first_run and call the guest
setup entry point (the call result is discarded). The store unwrap cannot
fail because get_wasm inserts both resources together. -/
def run_wasm_setup (w : World) : World × List GuestCall :=
  match w.wasm_bindings with
  | some b =>
    if b.first_run then
      ({ w with wasm_bindings := some { b with first_run := false } }, [.setup])
    else (w, [])
  | none => (w, [])

/-- Mirrors run_wasm_update (main.rs lines 413-421): when the WasmBindings
resource exists, call the guest update entry point (result discarded). -/
def run_wasm_update (w : World) : World × List GuestCall :=
  match w.wasm_bindings with
  | some _ => (w, [.update])
  | none => (w, [])

/-- One tick of the Update schedule as far as the lifecycle systems are
concerned, in registration order (main.rs lines 214-215, and the
single-threaded tick loop of spec section 5): run_wasm_setup then
run_wasm_update, collecting the guest calls made. -/
def tick (w : World) : World × List GuestCall :=
  let s := run_wasm_setup w
  let u := run_wasm_update s.1
  (u.1, s.2 ++ u.2)

/-- Iterate the tick n times, collecting each tick's guest-call list. -/
def ticks (w : World) : Nat → World × List (List GuestCall)
  | 0 => (w, [])
  | n + 1 =>
    let t := tick w
    let rest := ticks t.1 n
    (rest.1, t.2 :: rest.2)

/-- The fallible steps of get_wasm (main.rs lines 436-514), in program
order, with how a failure there leaves the function: unwrap panics the
fetch task, the question-mark operator returns the error. -/
inductive Stage
  | endpoint
  | connect
  | open_bi
  | grant
  | write
  | read
  | decode
  | engine
  | compile
  | link_wasi
  | link_world
  | instantiate
deriving DecidableEq, Repr

/-- The error taxonomy of spec section 7 for the fallible stages: transport
failures, decompression failures, and compile/link/instantiate failures. -/
inductive ErrClass
  | transport
  | decode
  | load
deriving DecidableEq, Repr

/-- Which taxonomy class an error-returning stage belongs to. The unwrap
stages (endpoint, connect, open_bi) never return an error; classify them
with the transport phase they belong to. -/
def Stage.errClass : Stage → ErrClass
  | .endpoint => .transport
  | .connect => .transport
  | .open_bi => .transport
  | .grant => .transport
  | .write => .transport
  | .read => .transport
  | .decode => .decode
  | .engine => .load
  | .compile => .load
  | .link_wasi => .load
  | .link_world => .load
  | .instantiate => .load

/-- How one call of get_wasm finishes: success, a panic at an unwrap
(which kills the fetch task without returning), or an error returned with
the question-mark operator at the given stage. -/
inductive GetWasmResult
  | ok
  | panicked (s : Stage)
  | errored (s : Stage)
deriving DecidableEq, Repr

/-- Whether the result is a returned error of the transport class. -/
def GetWasmResult.returnsTransportError : GetWasmResult → Bool
  | .errored s => s.errClass == .transport
  | _ => false

/-- Whether the result is a crash (panic) of the fetch task. -/
def GetWasmResult.isPanic : GetWasmResult → Bool
  | .panicked _ => true
  | _ => false

/-- The environment outcome of each fallible step of one get_wasm call:
true means the step succeeds. The step names follow main.rs lines 440-493:
Endpoint.client (unwrap), connect (unwrap), open_bi await (unwrap), the
stream-grant await, write_all, the read loop, the brotli read_to_end,
Engine.new, Component.new, sync.add_to_linker, MyWorld.add_to_linker and
MyWorld.instantiate (all question-mark). -/
structure FetchOutcome where
  endpoint_ok : Bool
  connect_ok : Bool
  open_bi_ok : Bool
  grant_ok : Bool
  write_ok : Bool
  read_ok : Bool
  decode_ok : Bool
  engine_ok : Bool
  compile_ok : Bool
  link_wasi_ok : Bool
  link_world_ok : Bool
  instantiate_ok : Bool
deriving DecidableEq, Repr

/-- How get_wasm finishes under the given outcome: the first failing step
in program order decides, exactly as the chain of unwraps and question
marks in main.rs lines 440-493 does. -/
def get_wasm_result (o : FetchOutcome) : GetWasmResult :=
  if !o.endpoint_ok then .panicked .endpoint
  else if !o.connect_ok then .panicked .connect
  else if !o.open_bi_ok then .panicked .open_bi
  else if !o.grant_ok then .errored .grant
  else if !o.write_ok then .errored .write
  else if !o.read_ok then .errored .read
  else if !o.decode_ok then .errored .decode
  else if !o.engine_ok then .errored .engine
  else if !o.compile_ok then .errored .compile
  else if !o.link_wasi_ok then .errored .link_wasi
  else if !o.link_world_ok then .errored .link_world
  else if !o.instantiate_ok then .errored .instantiate
  else .ok

/-- Mirrors get_wasm (main.rs lines 436-514). Every fallible step precedes
the run_on_main_thread closure, so the world resources are touched only
when every step succeeded; then the closure sets the WasmBindings resource
to the new bindings with first_run = true and the WasmStore resource to the
fresh store whose MyCtx holds an empty queue (inserting either resource if
absent, which yields the same resulting world). newInstance identifies the
opaque bindings value produced by instantiation. -/
def get_wasm (o : FetchOutcome) (newInstance : Nat) (world : World) :
    World × GetWasmResult :=
  match get_wasm_result o with
  | .ok =>
    ({ wasm_bindings := some { bindings := newInstance, first_run := true },
       wasm_store := some { store := { queue := [] } } }, .ok)
  | r => (world, r)

/-- How a single event updates the remembered rectangle dimensions. -/
def rectDimsStep (acc : F32 × F32) (e : HostEvent) : F32 × F32 :=
  match e with
  | .FillRect r => (r.width, r.height)
  | _ => acc

/-- The width and height of the most recent FillRect in an event list, with
the sentinel -1 for both when the list has none: the value the drain state
remembers for relative Arc placement. -/
def lastRectDims (es : List HostEvent) : F32 × F32 :=
  es.foldl rectDimsStep (-1, -1)

/-- Number of Fill events in a list. -/
def countFills : List HostEvent → Nat
  | [] => 0
  | .Fill :: rest => countFills rest + 1
  | _ :: rest => countFills rest

/-- A fetch outcome where every step succeeds. -/
def oAllOk : FetchOutcome :=
  ⟨true, true, true, true, true, true, true, true, true, true, true, true⟩

/-- A fetch outcome whose brotli decompression fails, everything else
succeeding. -/
def oDecodeFail : FetchOutcome :=
  ⟨true, true, true, true, true, true, false, true, true, true, true, true⟩

/-- A fetch outcome where establishing the connection fails (connection
refused), everything else succeeding. -/
def oConnRefused : FetchOutcome :=
  ⟨true, false, true, true, true, true, true, true, true, true, true, true⟩

/-- A sample world with an active instance and a non-empty queue, used to
exhibit that failed loads leave it untouched. -/
def sampleWorld : World :=
  ⟨some ⟨3, false⟩, some ⟨⟨[HostEvent.Fill, HostEvent.BeginPath]⟩⟩⟩

/-- A sample drain state whose current path starts with a stale non-Begin
command. -/
def staleState : DrainState :=
  ⟨none, [PathCommand.MoveTo (0, 0)], -1, -1⟩

lemma get_wasm_snd (o : FetchOutcome) (n : Nat) (w : World) :
    (get_wasm o n w).2 = get_wasm_result o := by
  unfold get_wasm
  cases get_wasm_result o <;> rfl

lemma load_stage_not_transport (de en co lw lwo inst : Bool) :
    (get_wasm_result ⟨true, true, true, true, true, true, de, en, co, lw, lwo, inst⟩).returnsTransportError = false := by
  cases de <;> cases en <;> cases co <;> cases lw <;> cases lwo <;> cases inst <;> decide

lemma load_stage_not_panic (de en co lw lwo inst : Bool) :
    (get_wasm_result ⟨true, true, true, true, true, true, de, en, co, lw, lwo, inst⟩).isPanic = false := by
  cases de <;> cases en <;> cases co <;> cases lw <;> cases lwo <;> cases inst <;> decide

lemma enqueueAll_queue (calls : List HostCall) :
    ∀ ctx : MyCtx,
      (enqueueAll ctx calls).queue = ctx.queue ++ calls.filterMap eventOfCall := by
  induction calls with
  | nil => intro ctx; simp [enqueueAll]
  | cons c cs ih =>
    intro ctx
    have h1 : enqueueAll ctx (c :: cs) = enqueueAll (hostDispatch ctx c).1 cs := rfl
    rw [h1, ih]
    cases c <;>
      simp [hostDispatch, MyCtx.print, MyCtx.fill_style, MyCtx.fill_rect,
        MyCtx.begin_path, MyCtx.arc, MyCtx.close_path, MyCtx.fill,
        MyCtx.move_to, MyCtx.cubic_bezier_to, MyCtx.label, eventOfCall]

lemma handleEvent_wh (s : DrainState) (e : HostEvent) :
    ((handleEvent s e).1.w, (handleEvent s e).1.h) = rectDimsStep (s.w, s.h) e := by
  cases e <;> try (simp [handleEvent, rectDimsStep])
  rcases h : s.current_path.head? with _ | cmd
  · simp [handleEvent, h, rectDimsStep]
  · cases cmd <;> simp [handleEvent, h, rectDimsStep]

lemma runDrain_wh (es : List HostEvent) :
    ∀ s : DrainState,
      ((runDrain s es).1.w, (runDrain s es).1.h) =
        es.foldl rectDimsStep (s.w, s.h) := by
  induction es with
  | nil => intro s; simp [runDrain]
  | cons e rest ih =>
    intro s
    calc ((runDrain s (e :: rest)).1.w, (runDrain s (e :: rest)).1.h)
        = ((runDrain (handleEvent s e).1 rest).1.w,
           (runDrain (handleEvent s e).1 rest).1.h) := rfl
      _ = rest.foldl rectDimsStep ((handleEvent s e).1.w, (handleEvent s e).1.h) := by
          rw [ih]
      _ = rest.foldl rectDimsStep (rectDimsStep (s.w, s.h) e) := by
          rw [handleEvent_wh]
      _ = (e :: rest).foldl rectDimsStep (s.w, s.h) := by
          rw [List.foldl_cons]

lemma countFills_cons (e : HostEvent) (rest : List HostEvent) :
    countFills (e :: rest) = countFills [e] + countFills rest := by
  cases e <;> simp [countFills] <;> omega

lemma handleEvent_stale (s : DrainState) (c : PathCommand) (t : List PathCommand)
    (hc : c ≠ .Begin) (hp : s.current_path = c :: t) (e : HostEvent) :
    (∃ u, (handleEvent s e).1.current_path = c :: u)
    ∧ (∀ p ∈ (handleEvent s e).2.1, p.isPath = false)
    ∧ (handleEvent s e).2.2 = countFills [e] := by
  cases e with
  | Label l => exact ⟨⟨t, hp⟩, by simp [handleEvent, Primitive.isPath], rfl⟩
  | FillStyle col => exact ⟨⟨t, hp⟩, by simp [handleEvent], rfl⟩
  | FillRect r => exact ⟨⟨t, hp⟩, by simp [handleEvent, Primitive.isPath], rfl⟩
  | MoveTo p => exact ⟨⟨t ++ [.MoveTo p], by simp [handleEvent, hp]⟩, by simp [handleEvent], rfl⟩
  | CubicBezierTo cb =>
    exact ⟨⟨t ++ [.CubicBezierTo cb], by simp [handleEvent, hp]⟩, by simp [handleEvent], rfl⟩
  | BeginPath =>
    exact ⟨⟨t ++ [.Begin], by simp [handleEvent, hp]⟩, by simp [handleEvent], rfl⟩
  | Arc a => exact ⟨⟨t ++ [.Arc a], by simp [handleEvent, hp]⟩, by simp [handleEvent], rfl⟩
  | ClosePath =>
    exact ⟨⟨t ++ [.Close], by simp [handleEvent, hp]⟩, by simp [handleEvent], rfl⟩
  | Fill =>
    have hh : s.current_path.head? = some c := by rw [hp]; rfl
    have hne : handleEvent s .Fill = (s, [], 1) := by
      cases c with
      | Begin => exact absurd rfl hc
      | MoveTo p => simp [handleEvent, hh]
      | CubicBezierTo cb => simp [handleEvent, hh]
      | Arc a => simp [handleEvent, hh]
      | Close => simp [handleEvent, hh]
    rw [hne]
    exact ⟨⟨t, hp⟩, by simp, rfl⟩

lemma runDrain_stale (c : PathCommand) (hc : c ≠ .Begin) (es : List HostEvent) :
    ∀ (s : DrainState) (t : List PathCommand), s.current_path = c :: t →
      (∃ u, (runDrain s es).1.current_path = c :: u)
      ∧ (∀ p ∈ (runDrain s es).2.1, p.isPath = false)
      ∧ (runDrain s es).2.2 = countFills es := by
  induction es with
  | nil =>
    intro s t hp
    exact ⟨⟨t, by simp [runDrain, hp]⟩, by simp [runDrain], by simp [runDrain, countFills]⟩
  | cons e rest ih =>
    intro s t hp
    obtain ⟨⟨u, hu⟩, hprim, hwarn⟩ := handleEvent_stale s c t hc hp e
    obtain ⟨⟨v, hv⟩, hprim2, hwarn2⟩ := ih (handleEvent s e).1 u hu
    refine ⟨⟨v, hv⟩, ?_, ?_⟩
    · intro p hmem
      have hsplit : (runDrain s (e :: rest)).2.1 =
          (handleEvent s e).2.1 ++ (runDrain (handleEvent s e).1 rest).2.1 := rfl
      rw [hsplit] at hmem
      rcases List.mem_append.mp hmem with h1 | h2
      · exact hprim p h1
      · exact hprim2 p h2
    · have hsplit : (runDrain s (e :: rest)).2.2 =
          (handleEvent s e).2.2 + (runDrain (handleEvent s e).1 rest).2.2 := rfl
      rw [hsplit, hwarn, hwarn2]
      exact (countFills_cons e rest).symm

lemma tick_steady (b : Nat) (st : Option WasmStore) :
    tick ⟨some ⟨b, false⟩, st⟩ = (⟨some ⟨b, false⟩, st⟩, [.update]) := rfl

lemma ticks_steady (b : Nat) (st : Option WasmStore) :
    ∀ m : Nat,
      ticks ⟨some ⟨b, false⟩, st⟩ m =
        (⟨some ⟨b, false⟩, st⟩, List.replicate m [.update]) := by
  intro m
  induction m with
  | zero => rfl
  | succ n ih =>
    have h1 : ticks (⟨some ⟨b, false⟩, st⟩ : World) (n + 1) =
        ((ticks (tick ⟨some ⟨b, false⟩, st⟩).1 n).1,
         (tick ⟨some ⟨b, false⟩, st⟩).2 :: (ticks (tick ⟨some ⟨b, false⟩, st⟩).1 n).2) := rfl
    rw [h1, tick_steady]
    simp [ih, List.replicate_succ]

/-- C3: processing a Fill event emits exactly one filled-path primitive if
and only if the first element of current_path is the Begin marker, in which
case the path is built from the remaining elements, current_path is cleared
and current_fill is reset; a Fill immediately after BeginPath with an empty
body emits one primitive with an empty path using the then-current fill
color, and a Fill with no preceding BeginPath in the pass emits zero
primitives and exactly one warning. -/
theorem fill_event_spec :
    (∀ s : DrainState,
      handleEvent s .Fill =
        if s.current_path.head? = some .Begin then
          ({ s with current_fill := none, current_path := [] },
           [.shapePath (buildPathOps (s.current_path.drop 1) s.w s.h)
              (0, 0, 1 / 1000) (s.current_fill.getD (Fill.ofColor .RED))], 0)
        else (s, [], 1))
    ∧ (∀ c : String,
        runDrain initDrainState [.FillStyle c, .BeginPath, .Fill] =
          (⟨none, [], -1, -1⟩,
           [.shapePath [] (0, 0, 1 / 1000) (Fill.ofColor (.custom c))], 0))
    ∧ runDrain initDrainState [.Fill] = (initDrainState, [], 1) := by
  refine ⟨?_, ?_, rfl⟩
  · intro s
    rcases h : s.current_path.head? with _ | cmd
    · simp [handleEvent, h]
    · cases cmd <;> simp [handleEvent, h]
  · intro c
    rfl

/-- C4: every FillRect event immediately emits exactly one filled-rectangle
primitive, colored with the current fill when one is pending and the default
red otherwise, records the width and height as the remembered rectangle
dimensions, and resets the current fill; hence a second FillRect with no
intervening FillStyle uses the default color. -/
theorem fill_rect_spec :
    (∀ (s : DrainState) (r : FillRect),
      handleEvent s (.FillRect r) =
        ({ s with w := r.width, h := r.height, current_fill := none },
         [.shapeRect ⟨(r.x + r.width, r.y + r.height), .Center⟩ (0, 0, 0)
            (s.current_fill.getD (Fill.ofColor .RED))], 0))
    ∧ (∀ (c : String) (r1 r2 : FillRect),
        (runDrain initDrainState [.FillStyle c, .FillRect r1, .FillRect r2]).2.1 =
          [.shapeRect ⟨(r1.x + r1.width, r1.y + r1.height), .Center⟩ (0, 0, 0)
             (Fill.ofColor (.custom c)),
           .shapeRect ⟨(r2.x + r2.width, r2.y + r2.height), .Center⟩ (0, 0, 0)
             (Fill.ofColor .RED)]) := by
  exact ⟨fun s r => rfl, fun c r1 r2 => rfl⟩

/-- C5: for every sequence of guest calls, draining the queue yields exactly
the recorded CommandEvents in call (FIFO) order, with no reordering,
duplication or loss, and leaves the queue empty. -/
theorem queue_drain_fifo :
    (∀ ctx : MyCtx, drainQueue ctx = (ctx.queue, ⟨[]⟩))
    ∧ (∀ calls : List HostCall,
        drainQueue (enqueueAll ⟨[]⟩ calls) = (calls.filterMap eventOfCall, ⟨[]⟩))
    ∧ (∀ ctx : MyCtx, (drainQueue ctx).2.queue.length = 0)
    ∧ (∀ ws : WasmStore, (handle_guest_event ws).1.store.queue.length = 0) := by
  refine ⟨fun ctx => rfl, ?_, fun ctx => rfl, fun ws => rfl⟩
  intro calls
  have h := enqueueAll_queue calls ⟨[]⟩
  simp only [drainQueue, h]
  rfl

/-- C6: every host interface function callable by the guest returns Ok, and
every call except print appends exactly one CommandEvent of the matching
variant carrying the call arguments unchanged to the queue; print appends
nothing. -/
theorem host_interface_spec :
    ∀ (ctx : MyCtx) (call : HostCall),
      (hostDispatch ctx call).2 = .Ok
      ∧ (hostDispatch ctx call).1.queue = ctx.queue ++ (eventOfCall call).toList := by
  intro ctx call
  cases call <;>
    simp [hostDispatch, MyCtx.print, MyCtx.fill_style, MyCtx.fill_rect,
      MyCtx.begin_path, MyCtx.arc, MyCtx.close_path, MyCtx.fill,
      MyCtx.move_to, MyCtx.cubic_bezier_to, MyCtx.label, eventOfCall]

/-- C8: an Arc processed during a valid Fill becomes an absolute move-to at
(x - w/2, y + h/2) followed by one arc segment, where w, h are the
remembered dimensions of the most recent FillRect processed in the same
drain pass, and the sentinel -1 for both when the pass has no FillRect
before the Fill. -/
theorem arc_offset_spec :
    (∀ (a : Arc) (rest : List PathCommand) (w h : F32),
      buildPathOps (.Arc a :: rest) w h =
        [.move_to (a.x - w / 2, a.y + h / 2),
         .arc (a.x + a.radius - w / 2, a.y + a.radius + h / 2)
           (a.radius, a.radius) a.sweep_angle a.x_rotation]
        ++ buildPathOps rest w h)
    ∧ (∀ es : List HostEvent,
        ((runDrain initDrainState es).1.w, (runDrain initDrainState es).1.h) =
          lastRectDims es)
    ∧ (∀ (r : FillRect) (a : Arc),
        (runDrain initDrainState [.FillRect r, .BeginPath, .Arc a, .Fill]).2.1 =
          [.shapeRect ⟨(r.x + r.width, r.y + r.height), .Center⟩ (0, 0, 0)
             (Fill.ofColor .RED),
           .shapePath
             [.move_to (a.x - r.width / 2, a.y + r.height / 2),
              .arc (a.x + a.radius - r.width / 2, a.y + a.radius + r.height / 2)
                (a.radius, a.radius) a.sweep_angle a.x_rotation]
             (0, 0, 1 / 1000) (Fill.ofColor .RED)])
    ∧ (∀ a : Arc,
        (runDrain initDrainState [.BeginPath, .Arc a, .Fill]).2.1 =
          [.shapePath
             [.move_to (a.x - (-1) / 2, a.y + (-1) / 2),
              .arc (a.x + a.radius - (-1) / 2, a.y + a.radius + (-1) / 2)
                (a.radius, a.radius) a.sweep_angle a.x_rotation]
             (0, 0, 1 / 1000) (Fill.ofColor .RED)]) := by
  refine ⟨fun a rest w h => rfl, ?_, fun r a => rfl, fun a => rfl⟩
  intro es
  exact runDrain_wh es initDrainState

/-- C9: a Fill rejected because the head of current_path is a stale
non-Begin command is a complete no-op on the drain state (one warning, no
primitive), and for the rest of the same drain pass the stale command stays
at the head of current_path, so every later Fill, even one preceded by a
BeginPath, also emits no filled-path primitive and only warns. -/
theorem rejected_fill_noop (s : DrainState) (c : PathCommand)
    (es : List HostEvent) (hh : s.current_path.head? = some c)
    (hc : c ≠ .Begin) :
    handleEvent s .Fill = (s, [], 1)
    ∧ (∃ u, (runDrain s es).1.current_path.head? = some c ∧
        (runDrain s es).1.current_path = c :: u)
    ∧ (∀ p ∈ (runDrain s es).2.1, p.isPath = false)
    ∧ (runDrain s es).2.2 = countFills es := by
  obtain ⟨t, hp⟩ : ∃ t, s.current_path = c :: t := by
    rcases hcp : s.current_path with _ | ⟨a, t⟩
    · rw [hcp] at hh; simp at hh
    · rw [hcp] at hh
      simp at hh
      exact ⟨t, by rw [hh]⟩
  obtain ⟨⟨u, hu⟩, hprim, hwarn⟩ := runDrain_stale c hc es s t hp
  refine ⟨?_, ⟨u, by rw [hu]; rfl, hu⟩, hprim, hwarn⟩
  obtain ⟨_, _, hw1⟩ := handleEvent_stale s c t hc hp .Fill
  have hne : handleEvent s .Fill = (s, [], 1) := by
    cases c with
    | Begin => exact absurd rfl hc
    | MoveTo p => simp [handleEvent, hh]
    | CubicBezierTo cb => simp [handleEvent, hh]
    | Arc a => simp [handleEvent, hh]
    | Close => simp [handleEvent, hh]
  exact hne

/-- Witness for C9 at a concrete stale state, with the continuation
containing a BeginPath followed by a Fill. -/
theorem rejected_fill_noop_witness :
    staleState.current_path.head? = some (.MoveTo (0, 0))
    ∧ PathCommand.MoveTo (0, 0) ≠ PathCommand.Begin
    ∧ (handleEvent staleState .Fill = (staleState, [], 1)
       ∧ (∃ u, (runDrain staleState [.BeginPath, .Fill]).1.current_path.head? =
             some (.MoveTo (0, 0)) ∧
           (runDrain staleState [.BeginPath, .Fill]).1.current_path =
             .MoveTo (0, 0) :: u)
       ∧ (∀ p ∈ (runDrain staleState [.BeginPath, .Fill]).2.1, p.isPath = false)
       ∧ (runDrain staleState [.BeginPath, .Fill]).2.2 =
           countFills [.BeginPath, .Fill]) :=
  ⟨by decide, by decide,
   rejected_fill_noop staleState (.MoveTo (0, 0)) [.BeginPath, .Fill]
     (by decide) (by decide)⟩

/-- C10: the rectangle primitive emitted for FillRect(x,y,w,h) has extents
(x + w, y + h), center origin and the default (identity) translation: the x
and y arguments enlarge the rectangle instead of translating it, so
FillRect(10,10,20,20) and FillRect(20,20,10,10) emit identical primitives. -/
theorem fill_rect_geometry :
    (∀ (s : DrainState) (r : FillRect),
      (handleEvent s (.FillRect r)).2.1 =
        [.shapeRect ⟨(r.x + r.width, r.y + r.height), .Center⟩ (0, 0, 0)
           (s.current_fill.getD (Fill.ofColor .RED))])
    ∧ (∀ s : DrainState,
        (handleEvent s (.FillRect ⟨10, 10, 20, 20⟩)).2.1 =
          (handleEvent s (.FillRect ⟨20, 20, 10, 10⟩)).2.1) := by
  refine ⟨fun s r => rfl, ?_⟩
  intro s
  show [Primitive.shapeRect ⟨((10 : F32) + 20, (10 : F32) + 20), .Center⟩ (0, 0, 0)
          (s.current_fill.getD (Fill.ofColor .RED))] =
       [Primitive.shapeRect ⟨((20 : F32) + 10, (20 : F32) + 10), .Center⟩ (0, 0, 0)
          (s.current_fill.getD (Fill.ofColor .RED))]
  norm_num

/-- C1: if any stage of a load attempt fails (transport failure,
decompression failure, or compile/link/instantiate failure inside get_wasm),
the WasmBindings and WasmStore resources — active instance, first_run flag
and event queue — are left exactly as they were. -/
theorem load_failure_leaves_world_unchanged (o : FetchOutcome) (n : Nat)
    (world : World) (h : (get_wasm o n world).2 ≠ .ok) :
    (get_wasm o n world).1 = world := by
  rw [get_wasm_snd] at h
  unfold get_wasm
  rcases hr : get_wasm_result o with _ | st | st
  · exact absurd hr h
  · rfl
  · rfl

/-- Witness for C1: a failed brotli decompression leaves a world holding an
active instance and a non-empty queue untouched. -/
theorem load_failure_leaves_world_unchanged_witness :
    (get_wasm oDecodeFail 7 sampleWorld).2 ≠ .ok
    ∧ (get_wasm oDecodeFail 7 sampleWorld).1 = sampleWorld :=
  ⟨by decide, load_failure_leaves_world_unchanged oDecodeFail 7 sampleWorld (by decide)⟩

/-- C2: after a successful load the instance starts with first_run = true;
the first tick calls setup then update and clears first_run; every later
tick calls only update, and first_run stays false, so setup runs exactly
once per instance. -/
theorem first_load_setup_once (o : FetchOutcome) (inst : Nat) (w : World)
    (m : Nat) (h : (get_wasm o inst w).2 = .ok) :
    (get_wasm o inst w).1.wasm_bindings = some ⟨inst, true⟩
    ∧ (tick (get_wasm o inst w).1).2 = [.setup, .update]
    ∧ (tick (get_wasm o inst w).1).1.wasm_bindings = some ⟨inst, false⟩
    ∧ (ticks (get_wasm o inst w).1 (m + 1)).2 =
        [.setup, .update] :: List.replicate m [.update]
    ∧ (ticks (get_wasm o inst w).1 (m + 1)).1.wasm_bindings =
        some ⟨inst, false⟩ := by
  rw [get_wasm_snd] at h
  have hw : (get_wasm o inst w).1 =
      ⟨some ⟨inst, true⟩, some ⟨⟨[]⟩⟩⟩ := by
    unfold get_wasm
    rw [h]
  rw [hw]
  have htick : tick (⟨some ⟨inst, true⟩, some ⟨⟨[]⟩⟩⟩ : World) =
      (⟨some ⟨inst, false⟩, some ⟨⟨[]⟩⟩⟩, [.setup, .update]) := rfl
  have hticks : ticks (⟨some ⟨inst, true⟩, some ⟨⟨[]⟩⟩⟩ : World) (m + 1) =
      ((ticks (⟨some ⟨inst, false⟩, some ⟨⟨[]⟩⟩⟩ : World) m).1,
       [.setup, .update] :: (ticks (⟨some ⟨inst, false⟩, some ⟨⟨[]⟩⟩⟩ : World) m).2) := rfl
  rw [htick, hticks, ticks_steady]
  exact ⟨rfl, rfl, rfl, rfl, rfl⟩

/-- Witness for C2: a fully successful fetch outcome applied to a world
that already held an older instance. -/
theorem first_load_setup_once_witness :
    (get_wasm oAllOk 0 sampleWorld).2 = .ok
    ∧ ((get_wasm oAllOk 0 sampleWorld).1.wasm_bindings = some ⟨0, true⟩
       ∧ (tick (get_wasm oAllOk 0 sampleWorld).1).2 = [.setup, .update]
       ∧ (tick (get_wasm oAllOk 0 sampleWorld).1).1.wasm_bindings = some ⟨0, false⟩
       ∧ (ticks (get_wasm oAllOk 0 sampleWorld).1 (2 + 1)).2 =
           [.setup, .update] :: List.replicate 2 [.update]
       ∧ (ticks (get_wasm oAllOk 0 sampleWorld).1 (2 + 1)).1.wasm_bindings =
           some ⟨0, false⟩) :=
  ⟨by decide, first_load_setup_once oAllOk 0 sampleWorld 2 (by decide)⟩

/-- C7 counterexample: a refused connection makes get_wasm panic at the
connect unwrap; the fetch does not fail by returning a TransportError, so
the claim that every transport failure returns a TransportError rather than
crashing is false on the code. -/
theorem transport_panic_counterexample :
    (get_wasm oConnRefused 0 ⟨none, none⟩).2 = .panicked .connect
    ∧ (get_wasm oConnRefused 0 ⟨none, none⟩).2.isPanic = true
    ∧ (get_wasm oConnRefused 0 ⟨none, none⟩).2.returnsTransportError = false := by
  refine ⟨rfl, rfl, rfl⟩

/-- C7 amended: get_wasm returns a transport-class error exactly when the
endpoint build, connection and stream open all succeed and one of the
stream grant, handshake write or stream read fails; when the endpoint
build, the connection or the stream open itself fails, the fetch task
panics at an unwrap instead of returning an error. -/
theorem transport_error_amended (o : FetchOutcome) (n : Nat) (w : World) :
    ((get_wasm o n w).2.returnsTransportError = true ↔
      (o.endpoint_ok = true ∧ o.connect_ok = true ∧ o.open_bi_ok = true ∧
        ¬(o.grant_ok = true ∧ o.write_ok = true ∧ o.read_ok = true)))
    ∧ ((get_wasm o n w).2.isPanic = true ↔
        ¬(o.endpoint_ok = true ∧ o.connect_ok = true ∧ o.open_bi_ok = true)) := by
  rw [get_wasm_snd]
  obtain ⟨e, c, ob, g, wr, rd, de, en, co, lw, lwo, inst⟩ := o
  cases e <;> cases c <;> cases ob <;> cases g <;> cases wr <;> cases rd <;>
    first
      | (simp [get_wasm_result, GetWasmResult.returnsTransportError,
           GetWasmResult.isPanic, Stage.errClass]; done)
      | (simp only [load_stage_not_transport, load_stage_not_panic]; simp; done)

end Levo
